import Mathlib

/-!
Verification development for the justjit Python package
(`src/justjit/__init__.py`): a shallow embedding of the eligibility
analyzer, the bytecode/unit extractor, and the lazy compile-and-dispatch
wrapper, together with theorems settling the specified properties.
-/

namespace JustJit

/-! ## Python values and exceptions -/

/-- A Python value as seen by the extraction layer: the only distinction the
code makes is `isinstance(v, int)` versus everything else. -/
inductive PyVal where
  | intVal (i : Int)
  | strVal (s : String)
  | noneVal
  | objVal (id : Nat)
deriving DecidableEq, Repr

/-- `isinstance(v, int)` for the embedded value type. -/
def PyVal.isInt : PyVal → Bool
  | .intVal _ => true
  | _ => false

/-- The integer payload of a value known to be an int (0 otherwise). -/
def PyVal.asInt : PyVal → Int
  | .intVal i => i
  | _ => 0

/-- A raised Python exception.  `isException` records whether the exception
class derives from `Exception` (true for ordinary errors, false for
`BaseException`-only classes such as `SystemExit` and `KeyboardInterrupt`,
which an `except Exception` clause does not catch). -/
structure PyExc where
  isException : Bool
  excName : String
deriving DecidableEq, Repr

/-- Result of invoking a Python callable: a normal return or a raised
exception propagating to the caller. -/
inductive Outcome (ρ : Type) where
  | ok (r : ρ)
  | raised (e : PyExc)
deriving DecidableEq, Repr

/-! ## The host function object

A `PyFunc` packages exactly the pieces of a CPython function object that
`justjit` reads: code flags, the disassembled instruction stream, code-object
tables and counts, the `__globals__` reference, the `__closure__` cells, and
the callable behaviour of the function itself.  Namespaces and cells are
modelled as references (`Nat` ids) into an explicit heap so that object
identity versus copying is expressible. -/

/-- One instruction as produced by `dis.get_instructions`: symbolic name,
numeric opcode, raw argument (absent for argument-less opcodes), resolved
`argval` (an arbitrary Python value), and byte offset. -/
structure DisInstr where
  opname : String
  opcode : Nat
  arg : Option Int
  argval : PyVal
  offset : Nat
deriving DecidableEq, Repr

/-- The embedded Python function object. -/
structure PyFunc (α ρ : Type) where
  co_flags : Nat
  instrs : List DisInstr
  name : String
  co_consts : List PyVal
  co_names : List String
  globals_ref : Nat
  closure : Option (List Nat)
  co_argcount : Nat
  co_nlocals : Nat
  num_cellvars : Nat
  num_freevars : Nat
  call : α → Outcome ρ

/-- A heap of namespaces: each reference id names a mutable string-keyed
namespace of Python values. -/
def Heap : Type := Nat → String → PyVal

/-- Read key `k` of the namespace named by reference `r`. -/
def Heap.lookup (h : Heap) (r : Nat) (k : String) : PyVal := h r k

/-- Mutate key `k` of the namespace named by reference `r`. -/
def Heap.update (h : Heap) (r : Nat) (k : String) (v : PyVal) : Heap :=
  fun r2 k2 => if r2 = r ∧ k2 = k then v else h r2 k2

/-! ## Eligibility analyzer (`_is_generator_or_coroutine`,
`_has_unsupported_opcodes`) -/

/-- `_CO_GENERATOR` code flag. -/
def CO_GENERATOR : Nat := 0x20

/-- `_CO_COROUTINE` code flag. -/
def CO_COROUTINE : Nat := 0x80

/-- `_CO_ASYNC_GENERATOR` code flag. -/
def CO_ASYNC_GENERATOR : Nat := 0x200

/-- `_GENERATOR_OPCODES`: generator/coroutine opcodes that cannot be JIT
compiled. -/
def GENERATOR_OPCODES : List String :=
  ["YIELD_VALUE", "RETURN_GENERATOR", "GEN_START", "SEND",
   "END_ASYNC_FOR", "GET_AWAITABLE", "GET_AITER", "GET_ANEXT",
   "GET_YIELD_FROM_ITER", "ASYNC_GEN_WRAP"]

/-- `_EXCEPTION_OPCODES`: exception handling opcodes that cannot be JIT
compiled. -/
def EXCEPTION_OPCODES : List String :=
  ["PUSH_EXC_INFO", "POP_EXCEPT", "CHECK_EXC_MATCH", "RAISE_VARARGS",
   "RERAISE", "CLEANUP_THROW", "SETUP_FINALLY", "POP_BLOCK",
   "BEFORE_WITH", "WITH_EXCEPT_START"]

/-- `_is_generator_or_coroutine`: flag-bit test against the three
generator/coroutine/async-generator flags. -/
def isGeneratorOrCoroutine (flags : Nat) : Bool :=
  flags &&& (CO_GENERATOR ||| CO_COROUTINE ||| CO_ASYNC_GENERATOR) != 0

/-- `_has_unsupported_opcodes`: scan the instruction stream in order; the
first instruction in `_GENERATOR_OPCODES` yields `"generator"`, the first in
`_EXCEPTION_OPCODES` yields `"exception"`; otherwise `none`. -/
def hasUnsupportedOpcodes : List DisInstr → Option String
  | [] => none
  | i :: rest =>
    if GENERATOR_OPCODES.contains i.opname then some "generator"
    else if EXCEPTION_OPCODES.contains i.opname then some "exception"
    else hasUnsupportedOpcodes rest

/-! ## Unit extractor (`_extract_bytecode` and friends) -/

/-- The record emitted per instruction by `_extract_bytecode`. -/
structure InstrRec where
  opcode : Nat
  arg : Int
  argval : Int
  offset : Nat
deriving DecidableEq, Repr

/-- The jump opcodes special-cased in `_extract_bytecode`. -/
def JUMP_OPCODES : List String :=
  ["POP_JUMP_IF_FALSE", "POP_JUMP_IF_TRUE", "JUMP_FORWARD", "JUMP_BACKWARD"]

/-- The `argval` resolution of `_extract_bytecode`: keep integer operands,
and for the jump opcodes take the target offset when it is an integer;
every other operand normalizes to 0. -/
def resolveArgval (i : DisInstr) : Int :=
  if i.argval.isInt then i.argval.asInt
  else if JUMP_OPCODES.contains i.opname then
    (if i.argval.isInt then i.argval.asInt else 0)
  else 0

/-- `_extract_bytecode`: drop `CACHE` placeholder instructions and emit an
`InstrRec` for each remaining instruction in order. -/
def extractBytecode (instrs : List DisInstr) : List InstrRec :=
  instrs.filterMap fun i =>
    if i.opname = "CACHE" then none
    else some { opcode := i.opcode
                arg := i.arg.getD 0
                argval := resolveArgval i
                offset := i.offset }

/-- `_extract_constants`: the constants pass through unchanged. -/
def extractConstants (f : PyFunc α ρ) : List PyVal := f.co_consts

/-- `_extract_names`: the name table passes through unchanged. -/
def extractNames (f : PyFunc α ρ) : List String := f.co_names

/-- `_extract_globals`: returns the function's `__globals__` reference
itself, never a copy. -/
def extractGlobals (f : PyFunc α ρ) : Nat := f.globals_ref

/-- The process-wide `builtins.__dict__` namespace reference returned by
`_extract_builtins`. -/
def BUILTINS_REF : Nat := 0

/-- `_extract_closure`: the function's captured cell list, or the empty list
when `__closure__` is `None`. -/
def extractClosure (f : PyFunc α ρ) : List Nat :=
  match f.closure with
  | some cs => cs
  | none => []

/-! ## Backend, events, and the dispatch wrapper (`_create_jit_wrapper`)

The backend (`JIT` from `_core`) is an external collaborator; it is modelled
as an oracle supplied per call.  Every interaction of the wrapper with the
backend or with a callable is recorded as an `Event`, so that temporal
claims ("compile is never invoked again") become statements about the event
traces of call sequences. -/

/-- One backend or call interaction performed by the wrapper.  Compile
events carry the full payload the Python code passes to the backend. -/
inductive Event (α : Type) where
  | configureEv (opt_level : Nat)
  | compileIntEv (instrs : List InstrRec) (consts : List PyVal)
      (fname : String) (paramCount totalLocals : Nat)
  | compileObjEv (instrs : List InstrRec) (consts : List PyVal)
      (names : List String) (globalsRef builtinsRef : Nat)
      (closureCells : List Nat) (fname : String)
      (paramCount totalLocals nlocals : Nat)
  | getIntCallableEv (fname : String) (paramCount : Nat)
  | getCallableEv (fname : String) (paramCount : Nat)
  | callCompiledEv (args : α)
  | callOriginalEv (args : α)
deriving DecidableEq, Repr

/-- Is this event an invocation of a backend compile entry point
(`compile` or `compile_int`)? -/
def Event.isCompile : Event α → Bool
  | .compileIntEv .. => true
  | .compileObjEv .. => true
  | _ => false

/-- Is this event a backend interaction at all (compile, or
`get_callable`/`get_int_callable`)? -/
def Event.isBackend : Event α → Bool
  | .compileIntEv .. => true
  | .compileObjEv .. => true
  | .getIntCallableEv .. => true
  | .getCallableEv .. => true
  | _ => false

/-- Is this event an invocation of one of the Integer-Mode backend entry
points (`compile_int` or `get_int_callable`)? -/
def Event.isIntBackend : Event α → Bool
  | .compileIntEv .. => true
  | .getIntCallableEv .. => true
  | _ => false

/-- The backend oracle: the results the `JIT` instance would return for each
of its entry points if invoked now.  Supplying a fresh oracle per call lets
the backend behave differently across calls. -/
structure Backend (α ρ : Type) where
  compile_int_result : Bool
  compile_result : Bool
  get_int_callable_result : Option (α → Outcome ρ)
  get_callable_result : Option (α → Outcome ρ)

/-- Everything `_create_jit_wrapper` captures in the wrapper closure before
the first call: the original function, the mode decision, and the extracted
compilation unit. -/
structure WrapperCfg (α ρ : Type) where
  func : PyFunc α ρ
  opt_level : Nat
  use_int_mode : Bool
  instructions : List InstrRec
  constants : List PyVal
  names : List String
  globals_dict : Nat
  builtins_dict : Nat
  closure_cells : List Nat
  param_count : Nat
  nlocals : Nat
  total_locals : Nat
  mode_attr : String

/-- The compiled-entry-point cache: `compiled_ptr`, initially `None`. -/
def CompiledPtr (α ρ : Type) : Type := Option (α → Outcome ρ)

/-- The `compile_int(...)` event a given wrapper emits, with the payload
the Python code passes. -/
def compileIntEvent (cfg : WrapperCfg α ρ) : Event α :=
  .compileIntEv cfg.instructions cfg.constants cfg.func.name
    cfg.param_count cfg.total_locals

/-- The `compile(...)` event a given wrapper emits, with the payload the
Python code passes (including the live globals/builtins references and the
closure cells). -/
def compileObjEvent (cfg : WrapperCfg α ρ) : Event α :=
  .compileObjEv cfg.instructions cfg.constants cfg.names cfg.globals_dict
    cfg.builtins_dict cfg.closure_cells cfg.func.name cfg.param_count
    cfg.total_locals cfg.nlocals

/-- The `try: return compiled_ptr(*args) except Exception: return
func(*args)` tail of the wrapper: invoke the compiled entry point; a raised
exception deriving from `Exception` is caught and the original callable is
invoked with the same arguments; any other raised exception propagates. -/
def runCompiled (cfg : WrapperCfg α ρ) (c : α → Outcome ρ) (args : α) :
    Outcome ρ × List (Event α) :=
  match c args with
  | .ok r => (.ok r, [.callCompiledEv args])
  | .raised e =>
    if e.isException then
      (cfg.func.call args, [.callCompiledEv args, .callOriginalEv args])
    else
      (.raised e, [.callCompiledEv args])

/-- One invocation of `wrapper(*args)`: given the current `compiled_ptr`
state and a backend oracle, produce the call result, the new state, and the
trace of events the call performed. -/
def wrapperCall (cfg : WrapperCfg α ρ) (b : Backend α ρ)
    (st : CompiledPtr α ρ) (args : α) :
    Outcome ρ × CompiledPtr α ρ × List (Event α) :=
  match st with
  | some c =>
    let p := runCompiled cfg c args
    (p.1, some c, p.2)
  | none =>
    if cfg.use_int_mode then
      if b.compile_int_result then
        match b.get_int_callable_result with
        | some c =>
          let p := runCompiled cfg c args
          (p.1, some c, compileIntEvent cfg ::
            .getIntCallableEv cfg.func.name cfg.param_count :: p.2)
        | none =>
          (cfg.func.call args, none,
           [compileIntEvent cfg,
            .getIntCallableEv cfg.func.name cfg.param_count,
            .callOriginalEv args])
      else
        (cfg.func.call args, none,
         [compileIntEvent cfg, .callOriginalEv args])
    else
      if b.compile_result then
        match b.get_callable_result with
        | some c =>
          let p := runCompiled cfg c args
          (p.1, some c, compileObjEvent cfg ::
            .getCallableEv cfg.func.name cfg.param_count :: p.2)
        | none =>
          (cfg.func.call args, none,
           [compileObjEvent cfg,
            .getCallableEv cfg.func.name cfg.param_count,
            .callOriginalEv args])
      else
        (cfg.func.call args, none,
         [compileObjEvent cfg, .callOriginalEv args])

/-- Run a sequence of wrapper calls (each with its own backend oracle and
arguments), threading the `compiled_ptr` state and concatenating the event
traces. -/
def runCalls (cfg : WrapperCfg α ρ) (calls : List (Backend α ρ × α))
    (st : CompiledPtr α ρ) : CompiledPtr α ρ × List (Event α) :=
  match calls with
  | [] => (st, [])
  | (b, a) :: rest =>
    let step := wrapperCall cfg b st a
    let tail := runCalls cfg rest step.2.1
    (tail.1, step.2.2 ++ tail.2)

/-! ## Decoration (`jit` / `_create_jit_wrapper`) -/

/-- A diagnostic emitted via `warnings.warn`; it names the function. -/
structure Warning where
  funcName : String
  message : String
deriving DecidableEq, Repr

/-- The public binding produced by decoration: either the original function
returned unchanged, or a JIT wrapper. -/
inductive Decorated (α ρ : Type) where
  | original (f : PyFunc α ρ)
  | wrapped (cfg : WrapperCfg α ρ)

/-- The wrapper configuration `_create_jit_wrapper` builds for an eligible
function: mode decision `use_int_mode = (mode == "int")`, the extracted
unit, slot counts, and the recorded `_mode` attribute. -/
def mkWrapperCfg (f : PyFunc α ρ) (opt_level : Nat) (mode : String) :
    WrapperCfg α ρ :=
  { func := f
    opt_level := opt_level
    use_int_mode := mode == "int"
    instructions := extractBytecode f.instrs
    constants := extractConstants f
    names := extractNames f
    globals_dict := extractGlobals f
    builtins_dict := BUILTINS_REF
    closure_cells := extractClosure f
    param_count := f.co_argcount
    nlocals := f.co_nlocals
    total_locals := f.co_nlocals + f.num_cellvars + f.num_freevars
    mode_attr := if mode == "int" then "int" else "object" }

/-- `_create_jit_wrapper`: reject generators/coroutines by flag, then by
opcode scan (each rejection returns the original function and emits one
warning naming it); otherwise build the wrapper.  The third component is
the trace of backend interactions performed at decoration time (the
constructor only configures the optimization level; it never compiles). -/
def createJitWrapper (f : PyFunc α ρ) (opt_level : Nat)
    (vectorize inline parallel lazy : Bool) (mode : String) :
    Decorated α ρ × List Warning × List (Event α) :=
  if isGeneratorOrCoroutine f.co_flags then
    (.original f,
     [{ funcName := f.name
        message := "Generator/coroutine function cannot be JIT compiled. The @jit decorator has no effect on this function." }],
     [])
  else
    match hasUnsupportedOpcodes f.instrs with
    | some "generator" =>
      (.original f,
       [{ funcName := f.name
          message := "Function contains generator/async opcodes. The @jit decorator has no effect on this function." }],
       [])
    | some "exception" =>
      (.original f,
       [{ funcName := f.name
          message := "Function uses try/except/raise which is not yet supported. The @jit decorator has no effect on this function." }],
       [])
    | _ =>
      (.wrapped (mkWrapperCfg f opt_level mode), [], [.configureEv opt_level])

/-- The `jit` decorator applied with explicit configuration (the
`func=None` curried form delegates to the same `_create_jit_wrapper`). -/
def jit (f : PyFunc α ρ) (opt_level : Nat)
    (vectorize inline parallel lazy : Bool) (mode : String) :
    Decorated α ρ × List Warning × List (Event α) :=
  createJitWrapper f opt_level vectorize inline parallel lazy mode

/-! ## Specification-side definitions

Used only to compare against the code-derived definitions in refinement
claims; each follows the spec text, not the source. -/

/-- Spec-side eligibility scan: find the first instruction whose opcode
belongs to either fixed category; membership in the generator/async
category yields reason `"generator"`, in the exception-handling category
reason `"exception"`; no match means eligible. -/
def specFirstUnsupported (instrs : List DisInstr) : Option String :=
  match instrs.find? (fun i =>
      GENERATOR_OPCODES.contains i.opname ||
      EXCEPTION_OPCODES.contains i.opname) with
  | none => none
  | some i =>
    if GENERATOR_OPCODES.contains i.opname then some "generator"
    else some "exception"

/-- Spec-side per-instruction record: `{opcode, arg (0 if absent), argval
(the operand when it is an integer, else 0), offset}`. -/
def specInstrRec (i : DisInstr) : InstrRec :=
  { opcode := i.opcode
    arg := match i.arg with
           | some a => a
           | none => 0
    argval := match i.argval with
              | .intVal n => n
              | _ => 0
    offset := i.offset }

/-- Spec-side extraction: drop the cache/placeholder pseudo-instructions,
then emit a record for each remaining instruction in original order. -/
def specExtractBytecode (instrs : List DisInstr) : List InstrRec :=
  (instrs.filter fun i => i.opname != "CACHE").map specInstrRec

/-! ## Concrete instances for counterexamples and witnesses -/

/-- A plain eligible function of no arguments returning 0 (think
`def f(): return 0`). -/
def exFunc : PyFunc Int Int :=
  { co_flags := 0
    instrs := [⟨"RESUME", 151, some 0, .intVal 0, 0⟩,
               ⟨"LOAD_CONST", 100, some 1, .intVal 0, 2⟩,
               ⟨"RETURN_VALUE", 83, none, .noneVal, 4⟩]
    name := "f"
    co_consts := [.noneVal, .intVal 0]
    co_names := []
    globals_ref := 1
    closure := none
    co_argcount := 0
    co_nlocals := 0
    num_cellvars := 0
    num_freevars := 0
    call := fun _ => .ok 0 }

/-- The wrapper configuration obtained by decorating `exFunc` with the
default mode. -/
def exCfg : WrapperCfg Int Int := mkWrapperCfg exFunc 3 "auto"

/-- A backend test double whose compile entry points always fail. -/
def failBackend : Backend Int Int :=
  { compile_int_result := false
    compile_result := false
    get_int_callable_result := none
    get_callable_result := none }

/-- A compiled entry point returning 7 on every input. -/
def okPtr : Int → Outcome Int := fun _ => .ok 7

/-- A backend test double whose object-mode compilation succeeds and
yields `okPtr`. -/
def okBackend : Backend Int Int :=
  { compile_int_result := true
    compile_result := true
    get_int_callable_result := some okPtr
    get_callable_result := some okPtr }

/-- A compiled entry point that raises an ordinary `Exception`-derived
error on every input. -/
def faultPtr : Int → Outcome Int := fun _ => .raised ⟨true, "ValueError"⟩

/-- A compiled entry point that raises `SystemExit` (a `BaseException`
that is not an `Exception`) on every input. -/
def exitPtr : Int → Outcome Int := fun _ => .raised ⟨false, "SystemExit"⟩

/-- A generator function (flag bit `_CO_GENERATOR` set; body irrelevant). -/
def exGenFunc : PyFunc Int Int :=
  { exFunc with
    co_flags := 0x20
    name := "gen"
    instrs := [⟨"RETURN_GENERATOR", 75, none, .noneVal, 0⟩,
               ⟨"YIELD_VALUE", 86, none, .noneVal, 2⟩] }

/-- A function with a closure cell and a global lookup (think a nested
`def g(): return x + acc` capturing `acc`). -/
def exClosureFunc : PyFunc Int Int :=
  { co_flags := 0
    instrs := [⟨"RESUME", 151, some 0, .intVal 0, 0⟩,
               ⟨"LOAD_GLOBAL", 116, some 0, .strVal "x", 2⟩,
               ⟨"CACHE", 0, none, .noneVal, 4⟩,
               ⟨"LOAD_DEREF", 137, some 1, .strVal "acc", 6⟩,
               ⟨"BINARY_OP", 122, some 0, .intVal 0, 8⟩,
               ⟨"RETURN_VALUE", 83, none, .noneVal, 10⟩]
    name := "g"
    co_consts := [.noneVal]
    co_names := ["x"]
    globals_ref := 5
    closure := some [9]
    co_argcount := 0
    co_nlocals := 0
    num_cellvars := 0
    num_freevars := 1
    call := fun _ => .ok 0 }

/-- A concrete initial heap: every namespace empty (all lookups `None`). -/
def exHeap0 : Heap := fun _ _ => .noneVal

/-! ## Helper lemmas -/

theorem runCompiled_ok (cfg : WrapperCfg α ρ) (c : α → Outcome ρ) (args : α)
    (r : ρ) (h : c args = .ok r) :
    runCompiled cfg c args = (.ok r, [.callCompiledEv args]) := by
  simp [runCompiled, h]

theorem runCompiled_caught (cfg : WrapperCfg α ρ) (c : α → Outcome ρ)
    (args : α) (e : PyExc) (h : c args = .raised e)
    (he : e.isException = true) :
    runCompiled cfg c args =
      (cfg.func.call args, [.callCompiledEv args, .callOriginalEv args]) := by
  simp [runCompiled, h, he]

theorem runCompiled_uncaught (cfg : WrapperCfg α ρ) (c : α → Outcome ρ)
    (args : α) (e : PyExc) (h : c args = .raised e)
    (he : e.isException = false) :
    runCompiled cfg c args = (.raised e, [.callCompiledEv args]) := by
  simp [runCompiled, h, he]

theorem runCompiled_head (cfg : WrapperCfg α ρ) (c : α → Outcome ρ)
    (args : α) :
    (runCompiled cfg c args).2.head? = some (.callCompiledEv args) := by
  unfold runCompiled
  cases c args with
  | ok r => rfl
  | raised e => by_cases he : e.isException <;> simp [he]

theorem runCompiled_no_backend (cfg : WrapperCfg α ρ) (c : α → Outcome ρ)
    (args : α) :
    (runCompiled cfg c args).2.any Event.isBackend = false := by
  unfold runCompiled
  cases c args with
  | ok r => rfl
  | raised e =>
    by_cases he : e.isException <;> simp [he, Event.isBackend]

theorem wrapperCall_some (cfg : WrapperCfg α ρ) (b : Backend α ρ)
    (c : α → Outcome ρ) (args : α) :
    wrapperCall cfg b (some c) args =
      ((runCompiled cfg c args).1, some c, (runCompiled cfg c args).2) := rfl

theorem wrapperCall_none_int (cfg : WrapperCfg α ρ) (b : Backend α ρ)
    (args : α) (h : cfg.use_int_mode = true) :
    wrapperCall cfg b none args =
      (if b.compile_int_result then
        match b.get_int_callable_result with
        | some c =>
          ((runCompiled cfg c args).1, some c, compileIntEvent cfg ::
            .getIntCallableEv cfg.func.name cfg.param_count ::
            (runCompiled cfg c args).2)
        | none =>
          (cfg.func.call args, none,
           [compileIntEvent cfg,
            .getIntCallableEv cfg.func.name cfg.param_count,
            .callOriginalEv args])
      else
        (cfg.func.call args, none,
         [compileIntEvent cfg, .callOriginalEv args])) := by
  simp only [wrapperCall, h, if_true]
  rfl

theorem wrapperCall_none_obj (cfg : WrapperCfg α ρ) (b : Backend α ρ)
    (args : α) (h : cfg.use_int_mode = false) :
    wrapperCall cfg b none args =
      (if b.compile_result then
        match b.get_callable_result with
        | some c =>
          ((runCompiled cfg c args).1, some c, compileObjEvent cfg ::
            .getCallableEv cfg.func.name cfg.param_count ::
            (runCompiled cfg c args).2)
        | none =>
          (cfg.func.call args, none,
           [compileObjEvent cfg,
            .getCallableEv cfg.func.name cfg.param_count,
            .callOriginalEv args])
      else
        (cfg.func.call args, none,
         [compileObjEvent cfg, .callOriginalEv args])) := by
  simp only [wrapperCall, h, if_false, Bool.false_eq_true]
  rfl

theorem runCompiled_snd_cases (cfg : WrapperCfg α ρ) (c : α → Outcome ρ)
    (args : α) :
    (runCompiled cfg c args).2 = [.callCompiledEv args] ∨
    (runCompiled cfg c args).2 =
      [.callCompiledEv args, .callOriginalEv args] := by
  unfold runCompiled
  cases c args with
  | ok r => left; rfl
  | raised e =>
    by_cases he : e.isException
    · right; simp [he]
    · left; simp [he]

theorem wrapperCall_none_any_compile (cfg : WrapperCfg α ρ)
    (b : Backend α ρ) (args : α) :
    (wrapperCall cfg b none args).2.2.any Event.isCompile = true := by
  by_cases h : cfg.use_int_mode
  · rw [wrapperCall_none_int cfg b args h]
    by_cases hc : b.compile_int_result
    · cases hg : b.get_int_callable_result <;>
        simp [hc, hg, compileIntEvent, Event.isCompile]
    · simp [hc, compileIntEvent, Event.isCompile]
  · rw [wrapperCall_none_obj cfg b args (by simpa using h)]
    by_cases hc : b.compile_result
    · cases hg : b.get_callable_result <;>
        simp [hc, hg, compileObjEvent, Event.isCompile]
    · simp [hc, compileObjEvent, Event.isCompile]

theorem wrapperCall_none_obj_head (cfg : WrapperCfg α ρ) (b : Backend α ρ)
    (args : α) (h : cfg.use_int_mode = false) :
    (wrapperCall cfg b none args).2.2.head? = some (compileObjEvent cfg) := by
  rw [wrapperCall_none_obj cfg b args h]
  by_cases hc : b.compile_result
  · cases hg : b.get_callable_result <;> simp [hc, hg]
  · simp [hc]

theorem wrapperCall_none_obj_second (cfg : WrapperCfg α ρ) (b : Backend α ρ)
    (args : α) (h : cfg.use_int_mode = false)
    (hc : b.compile_result = true) :
    (wrapperCall cfg b none args).2.2.tail.head? =
      some (.getCallableEv cfg.func.name cfg.param_count) := by
  rw [wrapperCall_none_obj cfg b args h]
  cases hg : b.get_callable_result <;> simp [hc, hg]

theorem wrapperCall_none_obj_no_int (cfg : WrapperCfg α ρ) (b : Backend α ρ)
    (args : α) (h : cfg.use_int_mode = false) :
    (wrapperCall cfg b none args).2.2.any Event.isIntBackend = false := by
  rw [wrapperCall_none_obj cfg b args h]
  by_cases hc : b.compile_result
  · cases hg : b.get_callable_result with
    | none => simp [hc, hg, compileObjEvent, Event.isIntBackend]
    | some c =>
      rcases runCompiled_snd_cases cfg c args with hr | hr <;>
        simp [hc, hg, hr, compileObjEvent, Event.isIntBackend]
  · simp [hc, compileObjEvent, Event.isIntBackend]

theorem hasUnsupported_cases (instrs : List DisInstr) :
    hasUnsupportedOpcodes instrs = none ∨
    hasUnsupportedOpcodes instrs = some "generator" ∨
    hasUnsupportedOpcodes instrs = some "exception" := by
  induction instrs with
  | nil => left; rfl
  | cons i rest ih =>
    by_cases hg : i.opname ∈ GENERATOR_OPCODES
    · right; left; simp [hasUnsupportedOpcodes, hg]
    · by_cases he : i.opname ∈ EXCEPTION_OPCODES
      · right; right; simp [hasUnsupportedOpcodes, hg, he]
      · simpa [hasUnsupportedOpcodes, hg, he] using ih

theorem hasUnsupported_ne_none_of_mem (instrs : List DisInstr)
    (i : DisInstr) (hmem : i ∈ instrs)
    (hop : GENERATOR_OPCODES.contains i.opname = true ∨
           EXCEPTION_OPCODES.contains i.opname = true) :
    hasUnsupportedOpcodes instrs ≠ none := by
  induction instrs with
  | nil => cases hmem
  | cons j rest ih =>
    by_cases hg : j.opname ∈ GENERATOR_OPCODES
    · simp [hasUnsupportedOpcodes, hg]
    · by_cases he : j.opname ∈ EXCEPTION_OPCODES
      · simp [hasUnsupportedOpcodes, hg, he]
      · rcases List.mem_cons.mp hmem with hij | hmem2
        · subst hij
          rcases hop with hop | hop
          · exact absurd (by simpa using hop) hg
          · exact absurd (by simpa using hop) he
        · simpa [hasUnsupportedOpcodes, hg, he] using ih hmem2

theorem createJitWrapper_eligible (f : PyFunc α ρ) (o : Nat)
    (v i p l : Bool) (mode : String)
    (h1 : isGeneratorOrCoroutine f.co_flags = false)
    (h2 : hasUnsupportedOpcodes f.instrs = none) :
    createJitWrapper f o v i p l mode =
      (.wrapped (mkWrapperCfg f o mode), [], [.configureEv o]) := by
  simp [createJitWrapper, h1, h2]

theorem instrRec_eq_spec (i : DisInstr) :
    ({ opcode := i.opcode, arg := i.arg.getD 0, argval := resolveArgval i,
       offset := i.offset } : InstrRec) = specInstrRec i := by
  unfold specInstrRec resolveArgval
  cases ha : i.arg <;> cases hv : i.argval <;>
    simp [PyVal.isInt, PyVal.asInt, ite_self]

theorem wrapperCall_none_fail (cfg : WrapperCfg α ρ) (b : Backend α ρ)
    (args : α)
    (hfail : (cfg.use_int_mode = true ∧
        (b.compile_int_result = false ∨ b.get_int_callable_result = none)) ∨
      (cfg.use_int_mode = false ∧
        (b.compile_result = false ∨ b.get_callable_result = none))) :
    (wrapperCall cfg b none args).1 = cfg.func.call args ∧
    (wrapperCall cfg b none args).2.1 = none := by
  rcases hfail with ⟨hm, hf⟩ | ⟨hm, hf⟩
  · rw [wrapperCall_none_int cfg b args hm]
    rcases hf with hf | hf
    · simp [hf]
    · by_cases hcr : b.compile_int_result <;> simp [hcr, hf]
  · rw [wrapperCall_none_obj cfg b args hm]
    rcases hf with hf | hf
    · simp [hf]
    · by_cases hcr : b.compile_result <;> simp [hcr, hf]

theorem runCalls_some_state (cfg : WrapperCfg α ρ) (c : α → Outcome ρ)
    (calls : List (Backend α ρ × α)) :
    (runCalls cfg calls (some c)).1 = some c ∧
    (runCalls cfg calls (some c)).2.any Event.isBackend = false := by
  induction calls with
  | nil => exact ⟨rfl, rfl⟩
  | cons ba rest ih =>
    obtain ⟨b, a⟩ := ba
    simp only [runCalls, wrapperCall_some, List.any_append]
    exact ⟨ih.1, by rw [runCompiled_no_backend, ih.2]; rfl⟩

/-! ## Claim theorems -/

/-- Claim C4: for a function not flagged as generator/coroutine, the
eligibility analysis is a single in-order scan of the instruction stream:
the first instruction whose opcode lies in the generator/async set gives
reason "generator", the first in the exception-handling set gives reason
"exception" (first match in scan order wins), and with no match the
function is eligible.  Stated as: the code's scan equals the spec's
first-match function on every instruction stream. -/
theorem c4_scan_first_match (instrs : List DisInstr) :
    hasUnsupportedOpcodes instrs = specFirstUnsupported instrs := by
  induction instrs with
  | nil => rfl
  | cons i rest ih =>
    by_cases hg : i.opname ∈ GENERATOR_OPCODES
    · simp [hasUnsupportedOpcodes, specFirstUnsupported, hg]
    · by_cases he : i.opname ∈ EXCEPTION_OPCODES
      · simp [hasUnsupportedOpcodes, specFirstUnsupported, hg, he]
      · simpa [hasUnsupportedOpcodes, specFirstUnsupported, hg, he] using ih

/-- Claim C6: extraction drops the cache placeholder instructions and maps
each remaining instruction, in order, to `{opcode, arg (0 if absent),
argval (the operand when integer, else 0), offset}`.  Stated as: the code's
extraction equals the spec's filter-then-map on every instruction
stream. -/
theorem c6_extract_bytecode_spec (instrs : List DisInstr) :
    extractBytecode instrs = specExtractBytecode instrs := by
  induction instrs with
  | nil => rfl
  | cons i rest ih =>
    by_cases hc : i.opname = "CACHE"
    · simpa [extractBytecode, specExtractBytecode, hc] using ih
    · simpa [extractBytecode, specExtractBytecode, hc, instrRec_eq_spec i]
        using ih

/-- Claim C3: a function flagged as generator/coroutine/async-generator, or
whose instruction stream contains a generator/async or exception-handling
opcode, is rejected: decoration returns the original function unchanged as
the public binding and emits exactly one diagnostic naming the function. -/
theorem c3_rejected_returns_original (f : PyFunc α ρ) (o : Nat)
    (v i p l : Bool) (mode : String)
    (h : isGeneratorOrCoroutine f.co_flags = true ∨
         ∃ ins ∈ f.instrs, GENERATOR_OPCODES.contains ins.opname = true ∨
           EXCEPTION_OPCODES.contains ins.opname = true) :
    (createJitWrapper f o v i p l mode).1 = .original f ∧
    (createJitWrapper f o v i p l mode).2.1.length = 1 ∧
    ∀ w ∈ (createJitWrapper f o v i p l mode).2.1, w.funcName = f.name := by
  by_cases hflag : isGeneratorOrCoroutine f.co_flags
  · refine ⟨?_, ?_, ?_⟩ <;> simp [createJitWrapper, hflag]
  · have hex : ∃ ins ∈ f.instrs, GENERATOR_OPCODES.contains ins.opname = true ∨
        EXCEPTION_OPCODES.contains ins.opname = true := by
      rcases h with h | h
      · exact absurd h hflag
      · exact h
    obtain ⟨ins, hmem, hop⟩ := hex
    have hne := hasUnsupported_ne_none_of_mem f.instrs ins hmem hop
    rcases hasUnsupported_cases f.instrs with hcase | hcase | hcase
    · exact absurd hcase hne
    · refine ⟨?_, ?_, ?_⟩ <;> simp [createJitWrapper, hflag, hcase]
    · refine ⟨?_, ?_, ?_⟩ <;> simp [createJitWrapper, hflag, hcase]

/-- Witness for C3 at a concrete generator function. -/
theorem c3_rejected_returns_original_witness :
    (isGeneratorOrCoroutine exGenFunc.co_flags = true ∨
      ∃ ins ∈ exGenFunc.instrs,
        GENERATOR_OPCODES.contains ins.opname = true ∨
        EXCEPTION_OPCODES.contains ins.opname = true) ∧
    ((createJitWrapper exGenFunc 3 true true false false "auto").1 =
        .original exGenFunc ∧
      (createJitWrapper exGenFunc 3 true true false false "auto").2.1.length = 1 ∧
      ∀ w ∈ (createJitWrapper exGenFunc 3 true true false false "auto").2.1,
        w.funcName = exGenFunc.name) :=
  ⟨Or.inl (by decide),
   c3_rejected_returns_original exGenFunc 3 true true false false "auto"
     (Or.inl (by decide))⟩

/-- Claim C1 counterexample: take the wrapper for `exFunc` and a backend
whose compile always fails.  The first call returns the original result,
invokes compile, and caches nothing; the second call — started from the
state the first call left behind — invokes the backend compile entry point
again, refuting that a failed compile makes the wrapper reach a permanent
fallback state in which compile is never invoked again. -/
theorem c1_counterexample :
    (wrapperCall exCfg failBackend none 0).1 = .ok 0 ∧
    ((wrapperCall exCfg failBackend none 0).2.2.any Event.isCompile = true) ∧
    (wrapperCall exCfg failBackend none 0).2.1 = none ∧
    ((wrapperCall exCfg failBackend
        ((wrapperCall exCfg failBackend none 0).2.1) 0).2.2.any
        Event.isCompile = true) :=
  ⟨rfl, rfl, rfl, rfl⟩

/-- Claim C1 (amended): if on a call with an empty compiled-entry cache the
backend compile call fails, or succeeds but yields no entry point, that
call returns the original callable's result and caches nothing; because the
cache stays empty, any subsequent call invokes the backend compile entry
points again — there is no permanent fallback state and compilation is
retried on every call. -/
theorem c1_compile_failure_retries (cfg : WrapperCfg α ρ)
    (b b2 : Backend α ρ) (args args2 : α)
    (hfail : (cfg.use_int_mode = true ∧
        (b.compile_int_result = false ∨ b.get_int_callable_result = none)) ∨
      (cfg.use_int_mode = false ∧
        (b.compile_result = false ∨ b.get_callable_result = none))) :
    (wrapperCall cfg b none args).1 = cfg.func.call args ∧
    (wrapperCall cfg b none args).2.1 = none ∧
    ((wrapperCall cfg b none args).2.2.any Event.isCompile = true) ∧
    ((wrapperCall cfg b2 none args2).2.2.any Event.isCompile = true) :=
  ⟨(wrapperCall_none_fail cfg b args hfail).1,
   (wrapperCall_none_fail cfg b args hfail).2,
   wrapperCall_none_any_compile cfg b args,
   wrapperCall_none_any_compile cfg b2 args2⟩

/-- Witness for the amended C1 at the concrete failing backend. -/
theorem c1_compile_failure_retries_witness :
    ((exCfg.use_int_mode = true ∧
        (failBackend.compile_int_result = false ∨
          failBackend.get_int_callable_result = none)) ∨
      (exCfg.use_int_mode = false ∧
        (failBackend.compile_result = false ∨
          failBackend.get_callable_result = none))) ∧
    ((wrapperCall exCfg failBackend none 2).1 = exCfg.func.call 2 ∧
      (wrapperCall exCfg failBackend none 2).2.1 = none ∧
      ((wrapperCall exCfg failBackend none 2).2.2.any Event.isCompile = true) ∧
      ((wrapperCall exCfg failBackend none 3).2.2.any Event.isCompile = true)) :=
  ⟨Or.inr ⟨rfl, Or.inl rfl⟩,
   c1_compile_failure_retries exCfg failBackend failBackend 2 3
     (Or.inr ⟨rfl, Or.inl rfl⟩)⟩

/-- Claim C2: once a call has cached a non-null entry point `c`, a call in
that state performs no backend interaction at all (neither compile nor
entry-point lookup), invokes the cached entry point with the original
arguments, and leaves the cache unchanged; hence along any sequence of
subsequent calls the cache still holds `c` and the trace contains no
backend interaction. -/
theorem c2_compiled_idempotent (cfg : WrapperCfg α ρ) (c : α → Outcome ρ)
    (b : Backend α ρ) (args : α) (calls : List (Backend α ρ × α)) :
    (wrapperCall cfg b (some c) args).2.2.head? =
      some (.callCompiledEv args) ∧
    (wrapperCall cfg b (some c) args).2.1 = some c ∧
    ((wrapperCall cfg b (some c) args).2.2.any Event.isBackend = false) ∧
    (runCalls cfg calls (some c)).1 = some c ∧
    ((runCalls cfg calls (some c)).2.any Event.isBackend = false) :=
  ⟨runCompiled_head cfg c args, rfl, runCompiled_no_backend cfg c args,
   (runCalls_some_state cfg c calls).1, (runCalls_some_state cfg c calls).2⟩

/-- Claim C5: in the compiled state, a call whose cached entry point raises
an `Exception`-derived fault is retried once against the original callable
with the same arguments and returns its result; the cached state is not
altered, and a further call again invokes the compiled entry point
first. -/
theorem c5_runtime_fault_recovered_per_call (cfg : WrapperCfg α ρ)
    (b b2 : Backend α ρ) (c : α → Outcome ρ) (args args2 : α) (e : PyExc)
    (hc : c args = .raised e) (he : e.isException = true) :
    (wrapperCall cfg b (some c) args).1 = cfg.func.call args ∧
    (wrapperCall cfg b (some c) args).2.2 =
      [.callCompiledEv args, .callOriginalEv args] ∧
    (wrapperCall cfg b (some c) args).2.1 = some c ∧
    (wrapperCall cfg b2 (some c) args2).2.2.head? =
      some (.callCompiledEv args2) := by
  have hrc := runCompiled_caught cfg c args e hc he
  exact ⟨by rw [wrapperCall_some, hrc], by rw [wrapperCall_some, hrc], rfl,
    runCompiled_head cfg c args2⟩

/-- Witness for C5: a cached entry point that raises `ValueError`. -/
theorem c5_runtime_fault_recovered_per_call_witness :
    faultPtr 0 = .raised ⟨true, "ValueError"⟩ ∧
    (⟨true, "ValueError"⟩ : PyExc).isException = true ∧
    ((wrapperCall exCfg okBackend (some faultPtr) 0).1 =
        exCfg.func.call 0 ∧
      (wrapperCall exCfg okBackend (some faultPtr) 0).2.2 =
        [.callCompiledEv 0, .callOriginalEv 0] ∧
      (wrapperCall exCfg okBackend (some faultPtr) 0).2.1 = some faultPtr ∧
      (wrapperCall exCfg okBackend (some faultPtr) 1).2.2.head? =
        some (.callCompiledEv 1)) :=
  ⟨rfl, rfl,
   c5_runtime_fault_recovered_per_call exCfg okBackend okBackend faultPtr
     0 1 ⟨true, "ValueError"⟩ rfl rfl⟩

/-- Claim C10: the per-call fallback catches only `Exception`-derived
faults: if the cached entry point raises a `BaseException`-only fault such
as `SystemExit`, the exception propagates to the caller unchanged, the
original callable is not invoked for that call (the trace holds only the
compiled-entry invocation), and the cached state is unchanged. -/
theorem c10_base_exception_propagates (cfg : WrapperCfg α ρ)
    (b : Backend α ρ) (c : α → Outcome ρ) (args : α) (e : PyExc)
    (hc : c args = .raised e) (he : e.isException = false) :
    (wrapperCall cfg b (some c) args).1 = .raised e ∧
    (wrapperCall cfg b (some c) args).2.2 = [.callCompiledEv args] ∧
    (wrapperCall cfg b (some c) args).2.1 = some c := by
  have hrc := runCompiled_uncaught cfg c args e hc he
  exact ⟨by rw [wrapperCall_some, hrc], by rw [wrapperCall_some, hrc], rfl⟩

/-- Witness for C10: a cached entry point raising `SystemExit`. -/
theorem c10_base_exception_propagates_witness :
    exitPtr 0 = .raised ⟨false, "SystemExit"⟩ ∧
    (⟨false, "SystemExit"⟩ : PyExc).isException = false ∧
    ((wrapperCall exCfg okBackend (some exitPtr) 0).1 =
        .raised ⟨false, "SystemExit"⟩ ∧
      (wrapperCall exCfg okBackend (some exitPtr) 0).2.2 =
        [.callCompiledEv 0] ∧
      (wrapperCall exCfg okBackend (some exitPtr) 0).2.1 = some exitPtr) :=
  ⟨rfl, rfl,
   c10_base_exception_propagates exCfg okBackend exitPtr 0
     ⟨false, "SystemExit"⟩ rfl rfl⟩

/-- Claim C7: in Object Mode the globals binding passed to the backend is
the function's own globals namespace reference (never a copy), and the
closure cells passed are the function's own cells; hence a mutation of the
namespace performed after extraction is visible through the binding handed
to the backend. -/
theorem c7_live_globals_binding (f : PyFunc α ρ) (o : Nat) (v i p l : Bool)
    (mode : String) (b : Backend α ρ) (args : α)
    (h1 : isGeneratorOrCoroutine f.co_flags = false)
    (h2 : hasUnsupportedOpcodes f.instrs = none)
    (hm : (mode == "int") = false) :
    (createJitWrapper f o v i p l mode).1 =
      .wrapped (mkWrapperCfg f o mode) ∧
    (mkWrapperCfg f o mode).globals_dict = f.globals_ref ∧
    (mkWrapperCfg f o mode).closure_cells = extractClosure f ∧
    (wrapperCall (mkWrapperCfg f o mode) b none args).2.2.head? =
      some (.compileObjEv (extractBytecode f.instrs) f.co_consts f.co_names
        f.globals_ref BUILTINS_REF (extractClosure f) f.name f.co_argcount
        (f.co_nlocals + f.num_cellvars + f.num_freevars) f.co_nlocals) ∧
    ∀ (h : Heap) (k : String) (val : PyVal),
      (h.update f.globals_ref k val).lookup
        (mkWrapperCfg f o mode).globals_dict k = val := by
  have hmode : (mkWrapperCfg f o mode).use_int_mode = false := by
    simp [mkWrapperCfg, hm]
  refine ⟨?_, rfl, rfl, ?_, ?_⟩
  · rw [createJitWrapper_eligible f o v i p l mode h1 h2]
  · have hh := wrapperCall_none_obj_head (mkWrapperCfg f o mode) b args hmode
    simpa [compileObjEvent, mkWrapperCfg, extractConstants, extractNames,
      extractGlobals] using hh
  · intro h k val
    simp [Heap.lookup, Heap.update, mkWrapperCfg, extractGlobals]

/-- Witness for C7 at a function with a closure cell, decorated with the
default mode, mutating key "x" of its globals namespace after
extraction. -/
theorem c7_live_globals_binding_witness :
    (isGeneratorOrCoroutine exClosureFunc.co_flags = false) ∧
    (hasUnsupportedOpcodes exClosureFunc.instrs = none) ∧
    ((("auto" : String) == "int") = false) ∧
    ((createJitWrapper exClosureFunc 3 true true false false "auto").1 =
      .wrapped (mkWrapperCfg exClosureFunc 3 "auto")) ∧
    ((mkWrapperCfg exClosureFunc 3 "auto").globals_dict =
      exClosureFunc.globals_ref) ∧
    ((mkWrapperCfg exClosureFunc 3 "auto").closure_cells =
      extractClosure exClosureFunc) ∧
    ((exHeap0.update exClosureFunc.globals_ref "x" (.intVal 41)).lookup
      (mkWrapperCfg exClosureFunc 3 "auto").globals_dict "x" =
        .intVal 41) := by
  have H := c7_live_globals_binding exClosureFunc 3 true true false false
    "auto" okBackend 0 rfl (by decide) rfl
  exact ⟨rfl, by decide, rfl, H.1, H.2.1, H.2.2.1,
    H.2.2.2.2 exHeap0 "x" (.intVal 41)⟩

/-- Claim C8: for an eligible function, decoration performs no backend
compile call, whatever the value of the lazy flag; the decoration result
does not depend on the lazy flag at all; and the wrapper's first call (the
empty-cache state) is what triggers compilation. -/
theorem c8_lazy_on_first_call (f : PyFunc α ρ) (o : Nat)
    (v i p lz lz2 : Bool) (mode : String) (b : Backend α ρ) (args : α)
    (h1 : isGeneratorOrCoroutine f.co_flags = false)
    (h2 : hasUnsupportedOpcodes f.instrs = none) :
    ((createJitWrapper f o v i p lz mode).2.2.any Event.isCompile = false) ∧
    (createJitWrapper f o v i p lz mode =
      createJitWrapper f o v i p lz2 mode) ∧
    ((createJitWrapper f o v i p lz mode).1 =
      .wrapped (mkWrapperCfg f o mode)) ∧
    ((wrapperCall (mkWrapperCfg f o mode) b none args).2.2.any
      Event.isCompile = true) := by
  rw [createJitWrapper_eligible f o v i p lz mode h1 h2,
      createJitWrapper_eligible f o v i p lz2 mode h1 h2]
  exact ⟨rfl, rfl, rfl, wrapperCall_none_any_compile (mkWrapperCfg f o mode)
    b args⟩

/-- Witness for C8 at the concrete eligible function `exFunc`. -/
theorem c8_lazy_on_first_call_witness :
    (isGeneratorOrCoroutine exFunc.co_flags = false) ∧
    (hasUnsupportedOpcodes exFunc.instrs = none) ∧
    (((createJitWrapper exFunc 3 true true false true "auto").2.2.any
        Event.isCompile = false) ∧
      (createJitWrapper exFunc 3 true true false true "auto" =
        createJitWrapper exFunc 3 true true false false "auto") ∧
      ((createJitWrapper exFunc 3 true true false true "auto").1 =
        .wrapped (mkWrapperCfg exFunc 3 "auto")) ∧
      ((wrapperCall (mkWrapperCfg exFunc 3 "auto") okBackend none 0).2.2.any
        Event.isCompile = true)) :=
  ⟨rfl, by decide,
   c8_lazy_on_first_call exFunc 3 true true false true false "auto"
     okBackend 0 rfl (by decide)⟩

/-- Claim C9: mode selection is a bare equality test against the string
"int": for every other mode value the wrapper is created (no mode value is
rejected), with `use_int_mode` false and recorded mode "object"; its first
call invokes the object-mode compile entry point (carrying names, globals,
builtins and closure cells), on compile success then `get_callable`, and it
never touches an integer-mode entry point. -/
theorem c9_mode_selection (f : PyFunc α ρ) (o : Nat) (v i p l : Bool)
    (mode : String) (b : Backend α ρ) (args : α)
    (h1 : isGeneratorOrCoroutine f.co_flags = false)
    (h2 : hasUnsupportedOpcodes f.instrs = none)
    (hm : mode ≠ "int") :
    (mkWrapperCfg f o mode).use_int_mode = false ∧
    (mkWrapperCfg f o mode).mode_attr = "object" ∧
    ((createJitWrapper f o v i p l mode).1 =
      .wrapped (mkWrapperCfg f o mode)) ∧
    ((wrapperCall (mkWrapperCfg f o mode) b none args).2.2.head? =
      some (compileObjEvent (mkWrapperCfg f o mode))) ∧
    (b.compile_result = true →
      (wrapperCall (mkWrapperCfg f o mode) b none args).2.2.tail.head? =
        some (.getCallableEv f.name f.co_argcount)) ∧
    ((wrapperCall (mkWrapperCfg f o mode) b none args).2.2.any
      Event.isIntBackend = false) := by
  have hbeq : (mode == "int") = false := beq_eq_false_iff_ne.mpr hm
  have hmode : (mkWrapperCfg f o mode).use_int_mode = false := by
    simp [mkWrapperCfg, hbeq]
  refine ⟨hmode, ?_, ?_, ?_, ?_, ?_⟩
  · simp [mkWrapperCfg, hbeq]
  · rw [createJitWrapper_eligible f o v i p l mode h1 h2]
  · exact wrapperCall_none_obj_head (mkWrapperCfg f o mode) b args hmode
  · intro hcr
    exact wrapperCall_none_obj_second (mkWrapperCfg f o mode) b args
      hmode hcr
  · exact wrapperCall_none_obj_no_int (mkWrapperCfg f o mode) b args hmode

/-- Witness for C9 at the unrecognized mode string "turbo". -/
theorem c9_mode_selection_witness :
    (isGeneratorOrCoroutine exFunc.co_flags = false) ∧
    (hasUnsupportedOpcodes exFunc.instrs = none) ∧
    (("turbo" : String) ≠ "int") ∧
    ((mkWrapperCfg exFunc 3 "turbo").use_int_mode = false ∧
      (mkWrapperCfg exFunc 3 "turbo").mode_attr = "object" ∧
      ((createJitWrapper exFunc 3 true true false false "turbo").1 =
        .wrapped (mkWrapperCfg exFunc 3 "turbo")) ∧
      ((wrapperCall (mkWrapperCfg exFunc 3 "turbo") okBackend none 0).2.2.head? =
        some (compileObjEvent (mkWrapperCfg exFunc 3 "turbo"))) ∧
      (okBackend.compile_result = true →
        (wrapperCall (mkWrapperCfg exFunc 3 "turbo") okBackend none
          0).2.2.tail.head? = some (.getCallableEv exFunc.name
            exFunc.co_argcount)) ∧
      ((wrapperCall (mkWrapperCfg exFunc 3 "turbo") okBackend none 0).2.2.any
        Event.isIntBackend = false)) :=
  ⟨rfl, by decide, by decide,
   c9_mode_selection exFunc 3 true true false false "turbo" okBackend 0
     rfl (by decide) (by decide)⟩

end JustJit
